import Mathlib

/-! WifiStation: connection state machine of an ESP32 wifi station

A shallow embedding of `WifiStation/WifiStation.cpp` and its headers.

* The object is the record `WifiStation`; every member function takes the
  object and returns the updated object.
* The wifi driver, the event loop and the RTOS are collaborators outside the
  repository.  Their return codes are supplied by a `Driver` record, and every
  call made to them is appended to the ghost field `calls` of the object.
* `ESP_ERROR_CHECK(x)` aborts the program when `x` is not `ESP_OK`; functions
  that contain it return an `Option`, with `none` for the abort.
* `xEventGroupWaitBits` suspends the caller; `start_connection` is therefore
  given the list of events that the event loop delivers while it is suspended,
  and yields `none` when that list ends before a waited bit is set.
* `int` members are embedded in `Int` and `size_t` values in `Nat`: the attempt
  counter is the mathematical integer, which is the C++ value as long as it
  stays below `INT_MAX` (signed overflow is undefined in C++).  `ESP_LOGx`
  calls have no effect on the object and are left out.
-/

/-! ## Types and constants of ESP-IDF and FreeRTOS used by the class -/

/-- Error code of ESP-IDF (`typedef int esp_err_t`). -/
abbrev esp_err_t := Int

/-- Success code of ESP-IDF. -/
def ESP_OK : esp_err_t := 0

/-- Size error of ESP-IDF (`0x104`). -/
def ESP_ERR_INVALID_SIZE : esp_err_t := 0x104

/-- Event bases the two handlers compare against; any other base is `OTHER_EVENT`. -/
inductive esp_event_base_t
  | WIFI_EVENT
  | IP_EVENT
  | OTHER_EVENT
  deriving DecidableEq, Repr

/-- Identifier `WIFI_EVENT_STA_START` of `wifi_event_t`. -/
def WIFI_EVENT_STA_START : Int := 2

/-- Identifier `WIFI_EVENT_STA_CONNECTED` of `wifi_event_t`. -/
def WIFI_EVENT_STA_CONNECTED : Int := 4

/-- Identifier `WIFI_EVENT_STA_DISCONNECTED` of `wifi_event_t`. -/
def WIFI_EVENT_STA_DISCONNECTED : Int := 5

/-- Identifier `IP_EVENT_STA_GOT_IP` of `ip_event_t`. -/
def IP_EVENT_STA_GOT_IP : Int := 0

/-- Wildcard identifier used when registering for every event of a base. -/
def ESP_EVENT_ANY_ID : Int := -1

/-- Authentication mode `WIFI_AUTH_WPA2_PSK` of `wifi_auth_mode_t`. -/
def WIFI_AUTH_WPA2_PSK : Int := 3

/-- Number of bytes of the field `wifi_sta_config_t::ssid` (`uint8_t ssid[32]`). -/
def sizeof_sta_ssid : Nat := 32

/-- Number of bytes of the field `wifi_sta_config_t::password` (`uint8_t password[64]`). -/
def sizeof_sta_password : Nat := 64

/-- Bits of a FreeRTOS event group. -/
abbrev EventBits_t := Nat

/-- `#define WIFI_EVENT_GRP_BIT_FAILED_TO_CONNECT (1 << 0)` -/
def WIFI_EVENT_GRP_BIT_FAILED_TO_CONNECT : EventBits_t := 1 <<< 0

/-- `#define WIFI_EVENT_GRP_BIT_CONNECTED (1 << 1)` -/
def WIFI_EVENT_GRP_BIT_CONNECTED : EventBits_t := 1 <<< 1

/-- `#define WIFI_EVENT_GRP_BIT_DISCONNECTED (1 << 2)` -/
def WIFI_EVENT_GRP_BIT_DISCONNECTED : EventBits_t := 1 <<< 2

/-- `#define WIFI_EVENT_GRP_BIT_RECONNECTING (1 << 3)` -/
def WIFI_EVENT_GRP_BIT_RECONNECTING : EventBits_t := 1 <<< 3

/-! ## Data model of the repository -/

/-- The enum of `wifi_station_status.hpp`. -/
inductive wifi_station_status
  | DISCONNECTED
  | CONNECTED
  | STARTING_DISCONNECTION
  | STARTING_CONNECTION
  | RECONNECTING
  deriving DecidableEq, Repr

/-- The struct of `WifiStationConfig.hpp`; a `std::string` is a Lean string with
one Lean character per C++ `char`. -/
structure WifiStationConfig where
  ssid : String
  password : String
  auto_reconnect : Bool := true
  max_con_failures : Int := 10
  deriving DecidableEq, Repr

/-- The parts of `wifi_config_t` (its `sta` member) that the class writes. -/
structure wifi_config_t where
  ssid : String
  password : String
  threshold_authmode : Int
  pmf_cfg_capable : Bool
  pmf_cfg_required : Bool
  deriving DecidableEq, Repr

/-- A call made by the class to the driver, the event loop or the RTOS. -/
inductive DriverCall
  | esp_netif_create_default_wifi_sta
  | esp_wifi_init
  | esp_wifi_set_mode_sta
  | esp_wifi_set_config (cfg : wifi_config_t)
  | esp_event_handler_instance_register (event_base : esp_event_base_t) (event_id : Int)
  | xEventGroupCreate
  | esp_wifi_start
  | esp_wifi_connect
  | vTaskDelay (ticks : Nat)
  deriving DecidableEq, Repr

/-- Answers of the collaborators: the code each fallible call returns.  The answer
to a connect request may depend on all calls made before it. -/
structure Driver where
  esp_wifi_init : esp_err_t
  esp_wifi_set_mode : esp_err_t
  esp_wifi_set_config : esp_err_t
  esp_event_handler_instance_register : esp_event_base_t → Int → esp_err_t
  esp_wifi_start : esp_err_t
  esp_wifi_connect : List DriverCall → esp_err_t
  portTICK_PERIOD_MS : Nat

/-- The members of `class WifiStation` (the log tag apart), and the ghost field
`calls`: the calls made so far to the collaborators, oldest first.  A handle that
has not been assigned yet is `none`; the event group handle carries the bits of
its group. -/
structure WifiStation where
  m_config : WifiStationConfig
  m_status : wifi_station_status
  m_connection_attempts : Int
  m_is_initialized : Bool
  m_wifi_config : wifi_config_t
  m_event_group : Option EventBits_t
  m_wifi_handler_event_instance : Option (esp_event_base_t × Int)
  m_got_ip_event_instance : Option (esp_event_base_t × Int)
  calls : List DriverCall
  deriving DecidableEq, Repr

/-- The constructor `WifiStation::WifiStation(config)` with the default member
initialisers of the header; the members without one (`m_wifi_config` and the
handles) are those of a zero-initialised object, as the global `station` of the
example is. -/
def WifiStation.construct (config : WifiStationConfig) : WifiStation :=
  { m_config := config
    m_status := wifi_station_status.DISCONNECTED
    m_connection_attempts := 0
    m_is_initialized := false
    m_wifi_config :=
      { ssid := "", password := "", threshold_authmode := 0,
        pmf_cfg_capable := false, pmf_cfg_required := false }
    m_event_group := none
    m_wifi_handler_event_instance := none
    m_got_ip_event_instance := none
    calls := [] }

/-! ## Collaborator primitives -/

/-- Record a call to a collaborator. -/
def WifiStation.call (self : WifiStation) (c : DriverCall) : WifiStation :=
  { self with calls := self.calls ++ [c] }

/-- The macro `ESP_ERROR_CHECK`: continue on `ESP_OK`, abort otherwise. -/
def ESP_ERROR_CHECK (x : esp_err_t) : Option Unit :=
  if x = ESP_OK then some () else none

/-- The C function `strcpy` applied to `src.c_str()`: the characters before the
first NUL. -/
def strcpy (src : String) : String :=
  String.mk (src.data.takeWhile (fun c => c ≠ Char.ofNat 0))

/-- The FreeRTOS function `xEventGroupSetBits` on the group behind a handle. -/
def xEventGroupSetBits (group : Option EventBits_t) (uxBitsToSet : EventBits_t) :
    Option EventBits_t :=
  group.map (fun bits => bits ||| uxBitsToSet)

/-- The FreeRTOS function `xEventGroupWaitBits` as `start_connection` calls it
(no clear on exit, any bit suffices, no timeout): the bits of the group once one
of the waited bits is set, `none` while the caller stays suspended.  With a
handle that was never assigned the call yields no value either: there is no
group that could wake the caller. -/
def xEventGroupWaitBits (group : Option EventBits_t) (uxBitsToWaitFor : EventBits_t) :
    Option EventBits_t :=
  match group with
  | none => none
  | some bits => if bits &&& uxBitsToWaitFor ≠ 0 then some bits else none

/-! ## Member functions -/

/-- The member function `WifiStation::initialize`. -/
def WifiStation.initialize (drv : Driver) (self : WifiStation) :
    Option (esp_err_t × WifiStation) :=
  if self.m_is_initialized then
    some (ESP_OK, self)
  else do
    let self := self.call DriverCall.esp_netif_create_default_wifi_sta
    let self := self.call DriverCall.esp_wifi_init
    ESP_ERROR_CHECK drv.esp_wifi_init
    let self := self.call DriverCall.esp_wifi_set_mode_sta
    ESP_ERROR_CHECK drv.esp_wifi_set_mode
    let self := { self with
      m_wifi_config :=
        { ssid := "", password := "", threshold_authmode := WIFI_AUTH_WPA2_PSK,
          pmf_cfg_capable := true, pmf_cfg_required := false } }
    let null_termintor_size : Nat := 1
    let max_ssid_length : Nat := sizeof_sta_ssid / 1
    if self.m_config.ssid.length + null_termintor_size > max_ssid_length then
      some (ESP_ERR_INVALID_SIZE, self)
    else do
      let self := { self with
        m_wifi_config := { self.m_wifi_config with ssid := strcpy self.m_config.ssid } }
      let max_password_length : Nat := sizeof_sta_password / 1
      if self.m_config.password.length + null_termintor_size > max_password_length then
        some (ESP_ERR_INVALID_SIZE, self)
      else do
        let self := { self with
          m_wifi_config :=
            { self.m_wifi_config with password := strcpy self.m_config.password } }
        let self := self.call (DriverCall.esp_wifi_set_config self.m_wifi_config)
        ESP_ERROR_CHECK drv.esp_wifi_set_config
        let self := self.call
          (DriverCall.esp_event_handler_instance_register
            esp_event_base_t.WIFI_EVENT ESP_EVENT_ANY_ID)
        ESP_ERROR_CHECK
          (drv.esp_event_handler_instance_register esp_event_base_t.WIFI_EVENT ESP_EVENT_ANY_ID)
        let self := { self with
          m_wifi_handler_event_instance :=
            some (esp_event_base_t.WIFI_EVENT, ESP_EVENT_ANY_ID) }
        let self := self.call
          (DriverCall.esp_event_handler_instance_register
            esp_event_base_t.IP_EVENT IP_EVENT_STA_GOT_IP)
        ESP_ERROR_CHECK
          (drv.esp_event_handler_instance_register esp_event_base_t.IP_EVENT IP_EVENT_STA_GOT_IP)
        let self := { self with
          m_got_ip_event_instance := some (esp_event_base_t.IP_EVENT, IP_EVENT_STA_GOT_IP) }
        let self := self.call DriverCall.xEventGroupCreate
        let self := { self with m_event_group := some 0 }
        let self := { self with m_is_initialized := true }
        some (ESP_OK, self)

/-- The member function `WifiStation::attempt_connection`. -/
def WifiStation.attempt_connection (drv : Driver) (self : WifiStation) :
    esp_err_t × WifiStation :=
  let self := { self with m_connection_attempts := self.m_connection_attempts + 1 }
  let result := drv.esp_wifi_connect self.calls
  let self := self.call DriverCall.esp_wifi_connect
  (result, self)

/-- The static member function `WifiStation::wifi_event_handler`; `self` is the
object behind `handler_arg`.  The payload `event_data` is only logged, and the
`if` on `max_con_failures < 0 && m_connection_attempts > 20` has an empty body,
so neither appears here. -/
def WifiStation.wifi_event_handler (drv : Driver) (self : WifiStation)
    (event_base : esp_event_base_t) (event_id : Int) : WifiStation :=
  if event_base ≠ esp_event_base_t.WIFI_EVENT then
    self
  else if event_id = WIFI_EVENT_STA_START then
    (self.attempt_connection drv).2
  else if event_id = WIFI_EVENT_STA_CONNECTED then
    let self := { self with m_connection_attempts := 0 }
    { self with m_status := wifi_station_status.CONNECTED }
  else if event_id = WIFI_EVENT_STA_DISCONNECTED then
    if self.m_status = wifi_station_status.STARTING_DISCONNECTION then
      { self with m_status := wifi_station_status.DISCONNECTED }
    else if self.m_config.auto_reconnect = true
        ∨ self.m_status = wifi_station_status.STARTING_CONNECTION then
      if self.m_connection_attempts > self.m_config.max_con_failures then
        let self := { self with m_status := wifi_station_status.DISCONNECTED }
        { self with
          m_event_group :=
            xEventGroupSetBits self.m_event_group WIFI_EVENT_GRP_BIT_FAILED_TO_CONNECT }
      else
        let self :=
          if self.m_status ≠ wifi_station_status.STARTING_CONNECTION then
            { self with m_status := wifi_station_status.RECONNECTING }
          else self
        let self :=
          if self.m_connection_attempts > 0 then
            self.call (DriverCall.vTaskDelay (500 / drv.portTICK_PERIOD_MS))
          else self
        (self.attempt_connection drv).2
    else
      self
  else
    self

/-- The static member function `WifiStation::ip_event_handler`: the object when
the handler returns. -/
def WifiStation.ip_event_handler (self : WifiStation)
    (event_base : esp_event_base_t) (event_id : Int) : WifiStation :=
  if event_base ≠ esp_event_base_t.IP_EVENT then
    self
  else if event_id = IP_EVENT_STA_GOT_IP then
    let self := { self with
      m_event_group := xEventGroupSetBits self.m_event_group WIFI_EVENT_GRP_BIT_CONNECTED }
    { self with m_status := wifi_station_status.CONNECTED }
  else
    self

/-- The part of `WifiStation::start_connection` before the blocking wait. -/
def WifiStation.start_connection_begin (drv : Driver) (self : WifiStation) :
    Option WifiStation := do
  let self ←
    if ¬ self.m_is_initialized then
      match WifiStation.initialize drv self with
      | none => none
      | some result => some result.2
    else
      some self
  let self := { self with m_status := wifi_station_status.STARTING_CONNECTION }
  let self := self.call DriverCall.esp_wifi_start
  ESP_ERROR_CHECK drv.esp_wifi_start
  some self

/-- The part of `WifiStation::start_connection` from the blocking wait on, for a
caller suspended while the object is `self`: `none` while no waited bit is set,
otherwise the value the call returns. -/
def WifiStation.start_connection_wait (self : WifiStation) : Option Bool :=
  match xEventGroupWaitBits self.m_event_group
      (WIFI_EVENT_GRP_BIT_CONNECTED ||| WIFI_EVENT_GRP_BIT_FAILED_TO_CONNECT) with
  | none => none
  | some bits =>
    if bits &&& WIFI_EVENT_GRP_BIT_FAILED_TO_CONNECT ≠ 0 then some false else some true

/-- An event as the event loop delivers it to the handlers. -/
structure esp_event where
  event_base : esp_event_base_t
  event_id : Int
  deriving DecidableEq, Repr

/-- The event loop: an event goes to the handler registered for it, the wifi
handler for every identifier of `WIFI_EVENT`, the ip handler for
`IP_EVENT_STA_GOT_IP` of `IP_EVENT`. -/
def WifiStation.dispatch (drv : Driver) (self : WifiStation) (ev : esp_event) : WifiStation :=
  match ev.event_base with
  | esp_event_base_t.WIFI_EVENT =>
    if self.m_wifi_handler_event_instance.isSome then
      self.wifi_event_handler drv ev.event_base ev.event_id
    else self
  | esp_event_base_t.IP_EVENT =>
    if self.m_got_ip_event_instance.isSome ∧ ev.event_id = IP_EVENT_STA_GOT_IP then
      self.ip_event_handler ev.event_base ev.event_id
    else self
  | esp_event_base_t.OTHER_EVENT => self

/-- The blocking wait of `start_connection` while the event loop delivers
`events`: the events are handled in order until a waited bit is set. -/
def WifiStation.start_connection_blocked (drv : Driver) :
    WifiStation → List esp_event → Option (Bool × WifiStation)
  | self, events =>
    match self.start_connection_wait with
    | some r => some (r, self)
    | none =>
      match events with
      | [] => none
      | ev :: rest => WifiStation.start_connection_blocked drv (self.dispatch drv ev) rest

/-- The member function `WifiStation::start_connection`, with the events that
are delivered while it is suspended: the returned value and the object at that
moment, `none` when the program aborts or the caller is still suspended after
the last event. -/
def WifiStation.start_connection (drv : Driver) (self : WifiStation)
    (events : List esp_event) : Option (Bool × WifiStation) := do
  let self ← self.start_connection_begin drv
  WifiStation.start_connection_blocked drv self events

/-- Number of connect requests among the calls made so far, that is the number
of times `attempt_connection` ran. -/
def WifiStation.attempts_made (self : WifiStation) : Nat :=
  self.calls.count DriverCall.esp_wifi_connect

/-- The bit `bit` is set in the event group of the object (`bits & bit` in C). -/
def WifiStation.bit_set (self : WifiStation) (bit : EventBits_t) : Bool :=
  match self.m_event_group with
  | none => false
  | some bits => bits &&& bit != 0

/-- A driver all of whose calls succeed, with a tick of 10 ms. -/
def Driver.ok : Driver :=
  { esp_wifi_init := ESP_OK
    esp_wifi_set_mode := ESP_OK
    esp_wifi_set_config := ESP_OK
    esp_event_handler_instance_register := fun _ _ => ESP_OK
    esp_wifi_start := ESP_OK
    esp_wifi_connect := fun _ => ESP_OK
    portTICK_PERIOD_MS := 10 }

/-! ## Concrete objects used to exercise the statements -/

/-- The configuration of `Example/main/main.cpp`. -/
def example_config : WifiStationConfig :=
  { ssid := "EXAMPLE_SSID", password := "EXAMPLE_PASSWORD" }

/-- The example configuration with a network name of 32 characters. -/
def oversize_config : WifiStationConfig :=
  { ssid := "EXAMPLE_SSID_0123456789_ABCDEFGH", password := "EXAMPLE_PASSWORD" }

/-- The object `station` of the example once `initialize` has returned. -/
def example_initialized : WifiStation :=
  { m_config := example_config
    m_status := wifi_station_status.DISCONNECTED
    m_connection_attempts := 0
    m_is_initialized := true
    m_wifi_config :=
      { ssid := "EXAMPLE_SSID", password := "EXAMPLE_PASSWORD",
        threshold_authmode := WIFI_AUTH_WPA2_PSK,
        pmf_cfg_capable := true, pmf_cfg_required := false }
    m_event_group := some 0
    m_wifi_handler_event_instance := some (esp_event_base_t.WIFI_EVENT, ESP_EVENT_ANY_ID)
    m_got_ip_event_instance := some (esp_event_base_t.IP_EVENT, IP_EVENT_STA_GOT_IP)
    calls :=
      [ DriverCall.esp_netif_create_default_wifi_sta,
        DriverCall.esp_wifi_init,
        DriverCall.esp_wifi_set_mode_sta,
        DriverCall.esp_wifi_set_config
          { ssid := "EXAMPLE_SSID", password := "EXAMPLE_PASSWORD",
            threshold_authmode := WIFI_AUTH_WPA2_PSK,
            pmf_cfg_capable := true, pmf_cfg_required := false },
        DriverCall.esp_event_handler_instance_register
          esp_event_base_t.WIFI_EVENT ESP_EVENT_ANY_ID,
        DriverCall.esp_event_handler_instance_register
          esp_event_base_t.IP_EVENT IP_EVENT_STA_GOT_IP,
        DriverCall.xEventGroupCreate ] }

/-- The object of the example while `start_connection` is suspended and the
lifecycle-started event has made the first attempt. -/
def example_pending : WifiStation :=
  { example_initialized with
    m_status := wifi_station_status.STARTING_CONNECTION
    m_connection_attempts := 1
    calls := example_initialized.calls ++ [DriverCall.esp_wifi_start, DriverCall.esp_wifi_connect] }

/-- The object of the example after a connection was established and then lost:
the status is `RECONNECTING` and a new attempt is under way. -/
def example_reconnecting : WifiStation :=
  { example_initialized with
    m_status := wifi_station_status.RECONNECTING
    m_connection_attempts := 1
    calls := example_initialized.calls ++
      [DriverCall.esp_wifi_start, DriverCall.esp_wifi_connect, DriverCall.esp_wifi_connect] }

/-- The object of the example after a teardown request has set the status. -/
def example_stopping : WifiStation :=
  { example_pending with m_status := wifi_station_status.STARTING_DISCONNECTION }

/-- The object of the example with `auto_reconnect` switched off, connected. -/
def example_connected_no_auto : WifiStation :=
  { example_pending with
    m_config := { example_config with auto_reconnect := false }
    m_status := wifi_station_status.CONNECTED
    m_connection_attempts := 0
    m_event_group := some WIFI_EVENT_GRP_BIT_CONNECTED }

/-- The example configuration with the documented value for unlimited retries. -/
def unlimited_config : WifiStationConfig :=
  { example_config with max_con_failures := -1 }

/-- The lifecycle-started event as the event loop delivers it. -/
def sta_start_event : esp_event :=
  { event_base := esp_event_base_t.WIFI_EVENT, event_id := WIFI_EVENT_STA_START }

/-- The connection-lost event as the event loop delivers it. -/
def sta_disconnected_event : esp_event :=
  { event_base := esp_event_base_t.WIFI_EVENT, event_id := WIFI_EVENT_STA_DISCONNECTED }

/-- The object with the unlimited-retries value while `start_connection` is
suspended and the lifecycle-started event has made the first attempt. -/
def unlimited_pending : WifiStation :=
  { example_pending with m_config := unlimited_config }

/-! ## Auxiliary facts -/

theorem ESP_ERR_INVALID_SIZE_ne_ESP_OK : ESP_ERR_INVALID_SIZE ≠ ESP_OK := by decide

theorem ESP_ERROR_CHECK_ok : ESP_ERROR_CHECK ESP_OK = some () := by
  simp [ESP_ERROR_CHECK]

theorem ESP_ERROR_CHECK_eq_some (x : esp_err_t) (u : Unit) :
    ESP_ERROR_CHECK x = some u ↔ x = ESP_OK := by
  unfold ESP_ERROR_CHECK
  split <;> simp_all

/-- A successful `initialize` leaves the object marked as initialized. -/
theorem initialize_ok_marks_initialized (drv : Driver) (self self' : WifiStation)
    (h : WifiStation.initialize drv self = some (ESP_OK, self')) :
    self'.m_is_initialized = true := by
  unfold WifiStation.initialize at h
  by_cases hi : self.m_is_initialized = true
  · simp [hi] at h
    rw [← h]
    exact hi
  · simp only [hi, Bool.false_eq_true, if_false, Option.bind_eq_bind, Option.bind_eq_some,
      ESP_ERROR_CHECK_eq_some, exists_const] at h
    obtain ⟨_, _, h⟩ := h
    split_ifs at h with h1 h2
    · simp [ESP_ERR_INVALID_SIZE_ne_ESP_OK] at h
    · simp [ESP_ERR_INVALID_SIZE_ne_ESP_OK] at h
    · simp only [Option.bind_eq_some, ESP_ERROR_CHECK_eq_some, exists_const, Option.some.injEq,
        Prod.mk.injEq, true_and] at h
      rw [← h.2.2.2]

/-! ### Event bits -/

theorem FAILED_TO_CONNECT_eq_one : WIFI_EVENT_GRP_BIT_FAILED_TO_CONNECT = 1 := by decide
theorem CONNECTED_eq_two : WIFI_EVENT_GRP_BIT_CONNECTED = 2 := by decide

theorem lor_eq_zero (x y : Nat) (h : x ||| y = 0) : x = 0 ∧ y = 0 := by
  have key : ∀ i, x.testBit i = false ∧ y.testBit i = false := by
    intro i
    have hi := congrArg (fun n => Nat.testBit n i) h
    simpa using hi
  constructor <;> apply Nat.eq_of_testBit_eq <;> intro i <;> simp [(key i).1, (key i).2]

/-- Setting the CONNECTED bit does not touch the FAILED_TO_CONNECT bit. -/
theorem set_connected_keeps_failed (b : EventBits_t) :
    (b ||| WIFI_EVENT_GRP_BIT_CONNECTED) &&& WIFI_EVENT_GRP_BIT_FAILED_TO_CONNECT
      = b &&& WIFI_EVENT_GRP_BIT_FAILED_TO_CONNECT := by
  rw [FAILED_TO_CONNECT_eq_one, CONNECTED_eq_two, Nat.and_comm, Nat.and_or_distrib_left, Nat.and_comm]
  simp

theorem set_bit_and_self_ne_zero (b bit : EventBits_t) (hbit : bit ≠ 0) :
    (b ||| bit) &&& bit ≠ 0 := by
  rw [Nat.and_comm, Nat.and_or_distrib_left, Nat.and_self]
  intro h
  exact hbit (lor_eq_zero _ _ h).2

theorem and_or_ne_zero_left (b x y : EventBits_t) (h : b &&& x ≠ 0) : b &&& (x ||| y) ≠ 0 := by
  rw [Nat.and_or_distrib_left]
  intro h0
  exact h (lor_eq_zero _ _ h0).1

/-- C7: `initialize()` is idempotent.  When a first call has returned `ESP_OK`,
the object is marked initialized, and a second call, whatever the driver would
answer, returns `ESP_OK` with the object unchanged in every member and without
any further call to the driver or the event loop (the recorded calls are among
the unchanged fields). -/
theorem initialize_idempotent (drv drv' : Driver) (self self' : WifiStation)
    (h : WifiStation.initialize drv self = some (ESP_OK, self')) :
    self'.m_is_initialized = true ∧
      WifiStation.initialize drv' self' = some (ESP_OK, self') := by
  have hi := initialize_ok_marks_initialized drv self self' h
  refine ⟨hi, ?_⟩
  unfold WifiStation.initialize
  simp [hi]

theorem initialize_idempotent_witness :
    WifiStation.initialize Driver.ok (WifiStation.construct example_config)
        = some (ESP_OK, example_initialized) ∧
      example_initialized.m_is_initialized = true ∧
      WifiStation.initialize Driver.ok example_initialized
        = some (ESP_OK, example_initialized) :=
  ⟨by decide,
    initialize_idempotent Driver.ok Driver.ok (WifiStation.construct example_config)
      example_initialized (by decide)⟩

/-- What `initialize` does to an uninitialized object with an oversize name or
password when the driver accepts the two calls that precede the size checks. -/
theorem initialize_oversize_result (drv : Driver) (self : WifiStation)
    (hinit : self.m_is_initialized = false)
    (hlen : 31 < self.m_config.ssid.length ∨ 63 < self.m_config.password.length)
    (hdrv_init : drv.esp_wifi_init = ESP_OK) (hdrv_mode : drv.esp_wifi_set_mode = ESP_OK) :
    ∃ cfg : wifi_config_t,
      WifiStation.initialize drv self = some (ESP_ERR_INVALID_SIZE,
        { self with
          m_wifi_config := cfg
          calls := self.calls ++
            [DriverCall.esp_netif_create_default_wifi_sta, DriverCall.esp_wifi_init,
             DriverCall.esp_wifi_set_mode_sta] }) := by
  unfold WifiStation.initialize
  simp only [hinit, Bool.false_eq_true, if_false, hdrv_init, hdrv_mode, ESP_ERROR_CHECK_ok,
    Option.bind_eq_bind, Option.some_bind, WifiStation.call, List.append_assoc,
    List.singleton_append, sizeof_sta_ssid, sizeof_sta_password, Nat.div_one]
  by_cases hs : self.m_config.ssid.length + 1 > 32
  · exact ⟨{ ssid := "", password := "", threshold_authmode := WIFI_AUTH_WPA2_PSK,
             pmf_cfg_capable := true, pmf_cfg_required := false },
      by rw [if_pos hs]; simp⟩
  · have hp : self.m_config.password.length + 1 > 64 := by omega
    exact ⟨{ ssid := strcpy self.m_config.ssid, password := "",
             threshold_authmode := WIFI_AUTH_WPA2_PSK,
             pmf_cfg_capable := true, pmf_cfg_required := false },
      by rw [if_neg hs, if_pos hp]; simp⟩

/-- C3: for an object that is not yet initialized and whose SSID has more than 31
characters or whose password has more than 63, `initialize()` (the driver having
accepted the two calls made before the size checks) returns
`ESP_ERR_INVALID_SIZE`; the only calls it has made are the three driver set-up
calls, so no event handler is registered and no event group is created; the
handles, `m_is_initialized` (false), the status and the attempt counter keep
their values, which are `DISCONNECTED` and 0 for a newly constructed object. -/
theorem initialize_oversize_invalid_size (drv : Driver) (self : WifiStation)
    (hinit : self.m_is_initialized = false)
    (hlen : 31 < self.m_config.ssid.length ∨ 63 < self.m_config.password.length)
    (hdrv_init : drv.esp_wifi_init = ESP_OK) (hdrv_mode : drv.esp_wifi_set_mode = ESP_OK) :
    ∃ self' : WifiStation,
      WifiStation.initialize drv self = some (ESP_ERR_INVALID_SIZE, self') ∧
      self'.calls = self.calls ++
        [DriverCall.esp_netif_create_default_wifi_sta, DriverCall.esp_wifi_init,
         DriverCall.esp_wifi_set_mode_sta] ∧
      self'.m_wifi_handler_event_instance = self.m_wifi_handler_event_instance ∧
      self'.m_got_ip_event_instance = self.m_got_ip_event_instance ∧
      self'.m_event_group = self.m_event_group ∧
      self'.m_is_initialized = false ∧
      self'.m_status = self.m_status ∧
      self'.m_connection_attempts = self.m_connection_attempts ∧
      self'.m_config = self.m_config := by
  obtain ⟨cfg, h⟩ := initialize_oversize_result drv self hinit hlen hdrv_init hdrv_mode
  exact ⟨_, h, rfl, rfl, rfl, rfl, hinit, rfl, rfl, rfl⟩

theorem initialize_oversize_invalid_size_witness :
    ∃ self' : WifiStation,
      WifiStation.initialize Driver.ok (WifiStation.construct oversize_config)
        = some (ESP_ERR_INVALID_SIZE, self') ∧
      self'.calls = [] ++
        [DriverCall.esp_netif_create_default_wifi_sta, DriverCall.esp_wifi_init,
         DriverCall.esp_wifi_set_mode_sta] ∧
      self'.m_wifi_handler_event_instance = none ∧
      self'.m_got_ip_event_instance = none ∧
      self'.m_event_group = none ∧
      self'.m_is_initialized = false ∧
      self'.m_status = wifi_station_status.DISCONNECTED ∧
      self'.m_connection_attempts = 0 ∧
      self'.m_config = oversize_config :=
  initialize_oversize_invalid_size Driver.ok (WifiStation.construct oversize_config)
    (by decide) (by decide) (by decide) (by decide)

/-- C10: `start_connection()` does not propagate a failed `initialize()`.  For an
uninitialized object with an oversize SSID or password (the driver accepting the
calls), `initialize()` returns `ESP_ERR_INVALID_SIZE` and leaves the object
`failed`; `start_connection()` discards that result and goes on from `failed`:
it sets the status to `STARTING_CONNECTION`, starts the driver and reaches its
blocking wait instead of returning.  At the wait `m_is_initialized` is still
false, the four calls made are the three driver set-up calls and
`esp_wifi_start`, so no handler was registered and no event group created, and
the handles are as they were; with no event group behind the handle the wait
yields no value. -/
theorem start_connection_ignores_failed_initialize (drv : Driver) (self : WifiStation)
    (hinit : self.m_is_initialized = false)
    (hlen : 31 < self.m_config.ssid.length ∨ 63 < self.m_config.password.length)
    (hdrv_init : drv.esp_wifi_init = ESP_OK) (hdrv_mode : drv.esp_wifi_set_mode = ESP_OK)
    (hdrv_start : drv.esp_wifi_start = ESP_OK) :
    ∃ failed waiting : WifiStation,
      WifiStation.initialize drv self = some (ESP_ERR_INVALID_SIZE, failed) ∧
      WifiStation.start_connection_begin drv self = some waiting ∧
      waiting = { failed with
        m_status := wifi_station_status.STARTING_CONNECTION
        calls := failed.calls ++ [DriverCall.esp_wifi_start] } ∧
      waiting.m_status = wifi_station_status.STARTING_CONNECTION ∧
      waiting.calls = self.calls ++
        [DriverCall.esp_netif_create_default_wifi_sta, DriverCall.esp_wifi_init,
         DriverCall.esp_wifi_set_mode_sta, DriverCall.esp_wifi_start] ∧
      waiting.m_is_initialized = false ∧
      waiting.m_event_group = self.m_event_group ∧
      waiting.m_wifi_handler_event_instance = self.m_wifi_handler_event_instance ∧
      waiting.m_got_ip_event_instance = self.m_got_ip_event_instance ∧
      (self.m_event_group = none → waiting.start_connection_wait = none) := by
  obtain ⟨cfg, h⟩ := initialize_oversize_result drv self hinit hlen hdrv_init hdrv_mode
  refine ⟨_, { self with
        m_wifi_config := cfg
        m_status := wifi_station_status.STARTING_CONNECTION
        calls := self.calls ++
          [DriverCall.esp_netif_create_default_wifi_sta, DriverCall.esp_wifi_init,
           DriverCall.esp_wifi_set_mode_sta, DriverCall.esp_wifi_start] },
      h, ?_, ?_, rfl, rfl, hinit, rfl, rfl, rfl, ?_⟩
  · unfold WifiStation.start_connection_begin
    simp [hinit, h, hdrv_start, ESP_ERROR_CHECK_ok, WifiStation.call]
  · simp
  · intro hg
    simp [WifiStation.start_connection_wait, xEventGroupWaitBits, hg]

theorem start_connection_ignores_failed_initialize_witness :
    ∃ failed waiting : WifiStation,
      WifiStation.initialize Driver.ok (WifiStation.construct oversize_config)
        = some (ESP_ERR_INVALID_SIZE, failed) ∧
      WifiStation.start_connection_begin Driver.ok (WifiStation.construct oversize_config)
        = some waiting ∧
      waiting = { failed with
        m_status := wifi_station_status.STARTING_CONNECTION
        calls := failed.calls ++ [DriverCall.esp_wifi_start] } ∧
      waiting.m_status = wifi_station_status.STARTING_CONNECTION ∧
      waiting.calls = (WifiStation.construct oversize_config).calls ++
        [DriverCall.esp_netif_create_default_wifi_sta, DriverCall.esp_wifi_init,
         DriverCall.esp_wifi_set_mode_sta, DriverCall.esp_wifi_start] ∧
      waiting.m_is_initialized = false ∧
      waiting.m_event_group = (WifiStation.construct oversize_config).m_event_group ∧
      waiting.m_wifi_handler_event_instance
        = (WifiStation.construct oversize_config).m_wifi_handler_event_instance ∧
      waiting.m_got_ip_event_instance
        = (WifiStation.construct oversize_config).m_got_ip_event_instance ∧
      ((WifiStation.construct oversize_config).m_event_group = none →
        waiting.start_connection_wait = none) :=
  start_connection_ignores_failed_initialize Driver.ok (WifiStation.construct oversize_config)
    (by decide) (by decide) (by decide) (by decide) (by decide)

/-! ## The event handlers -/

/-- The connection-established event resets the counter and sets the status. -/
theorem wifi_event_handler_sta_connected (drv : Driver) (self : WifiStation) :
    self.wifi_event_handler drv esp_event_base_t.WIFI_EVENT WIFI_EVENT_STA_CONNECTED
      = { self with m_connection_attempts := 0, m_status := wifi_station_status.CONNECTED } := by
  unfold WifiStation.wifi_event_handler
  rw [if_neg (by simp), if_neg (by decide), if_pos rfl]

/-- The connection-lost branch of `wifi_event_handler`. -/
theorem wifi_event_handler_sta_disconnected (drv : Driver) (self : WifiStation) :
    self.wifi_event_handler drv esp_event_base_t.WIFI_EVENT WIFI_EVENT_STA_DISCONNECTED
      = if self.m_status = wifi_station_status.STARTING_DISCONNECTION then
          { self with m_status := wifi_station_status.DISCONNECTED }
        else if self.m_config.auto_reconnect = true
            ∨ self.m_status = wifi_station_status.STARTING_CONNECTION then
          if self.m_connection_attempts > self.m_config.max_con_failures then
            { self with
              m_status := wifi_station_status.DISCONNECTED
              m_event_group :=
                xEventGroupSetBits self.m_event_group WIFI_EVENT_GRP_BIT_FAILED_TO_CONNECT }
          else
            { self with
              m_status :=
                if self.m_status ≠ wifi_station_status.STARTING_CONNECTION then
                  wifi_station_status.RECONNECTING
                else self.m_status
              m_connection_attempts := self.m_connection_attempts + 1
              calls :=
                if self.m_connection_attempts > 0 then
                  self.calls ++ [DriverCall.vTaskDelay (500 / drv.portTICK_PERIOD_MS),
                    DriverCall.esp_wifi_connect]
                else self.calls ++ [DriverCall.esp_wifi_connect] }
        else self := by
  unfold WifiStation.wifi_event_handler
  rw [if_neg (by simp), if_neg (by decide), if_neg (by decide), if_pos rfl]
  unfold WifiStation.attempt_connection WifiStation.call
  by_cases h1 : self.m_status = wifi_station_status.STARTING_DISCONNECTION
  · simp [h1]
  · by_cases h2 : self.m_config.auto_reconnect = true
        ∨ self.m_status = wifi_station_status.STARTING_CONNECTION
    · by_cases h3 : self.m_connection_attempts > self.m_config.max_con_failures
      · simp only [if_neg h1, if_pos h2, if_pos h3]
      · by_cases h4 : self.m_status = wifi_station_status.STARTING_CONNECTION <;>
          by_cases h5 : self.m_connection_attempts > 0 <;>
          simp [h1, h2, h3, h4, h5]
    · simp only [if_neg h1, if_neg h2]

/-- C4: a connection-lost event delivered while the status is
`STARTING_DISCONNECTION` sets the status to `DISCONNECTED` and does nothing else,
whatever the configuration, the counter and the bits are: every other member is
unchanged, no call is made (so `attempt_connection()` does not run), the attempt
counter and the event group keep their values. -/
theorem disconnected_event_while_stopping (drv : Driver) (self : WifiStation)
    (hstatus : self.m_status = wifi_station_status.STARTING_DISCONNECTION) :
    self.wifi_event_handler drv esp_event_base_t.WIFI_EVENT WIFI_EVENT_STA_DISCONNECTED
        = { self with m_status := wifi_station_status.DISCONNECTED } ∧
      (self.wifi_event_handler drv esp_event_base_t.WIFI_EVENT
        WIFI_EVENT_STA_DISCONNECTED).calls = self.calls ∧
      (self.wifi_event_handler drv esp_event_base_t.WIFI_EVENT
        WIFI_EVENT_STA_DISCONNECTED).attempts_made = self.attempts_made ∧
      (self.wifi_event_handler drv esp_event_base_t.WIFI_EVENT
        WIFI_EVENT_STA_DISCONNECTED).m_connection_attempts = self.m_connection_attempts ∧
      (self.wifi_event_handler drv esp_event_base_t.WIFI_EVENT
        WIFI_EVENT_STA_DISCONNECTED).m_event_group = self.m_event_group := by
  rw [wifi_event_handler_sta_disconnected, if_pos hstatus]
  exact ⟨rfl, rfl, rfl, rfl, rfl⟩

theorem disconnected_event_while_stopping_witness :
    example_stopping.wifi_event_handler Driver.ok esp_event_base_t.WIFI_EVENT
        WIFI_EVENT_STA_DISCONNECTED
        = { example_stopping with m_status := wifi_station_status.DISCONNECTED } ∧
      (example_stopping.wifi_event_handler Driver.ok esp_event_base_t.WIFI_EVENT
        WIFI_EVENT_STA_DISCONNECTED).calls = example_stopping.calls ∧
      (example_stopping.wifi_event_handler Driver.ok esp_event_base_t.WIFI_EVENT
        WIFI_EVENT_STA_DISCONNECTED).attempts_made = example_stopping.attempts_made ∧
      (example_stopping.wifi_event_handler Driver.ok esp_event_base_t.WIFI_EVENT
        WIFI_EVENT_STA_DISCONNECTED).m_connection_attempts
        = example_stopping.m_connection_attempts ∧
      (example_stopping.wifi_event_handler Driver.ok esp_event_base_t.WIFI_EVENT
        WIFI_EVENT_STA_DISCONNECTED).m_event_group = example_stopping.m_event_group :=
  disconnected_event_while_stopping Driver.ok example_stopping (by decide)

/-- C5: with `auto_reconnect = false` and the status `CONNECTED` (as the
connection-established event leaves it), a connection-lost event returns the
object unchanged: no call is made, so `attempt_connection()` does not run and the
attempt counter does not grow, and the status and the event group with both bits
are exactly as before the event. -/
theorem disconnected_event_without_auto_reconnect (drv : Driver) (self : WifiStation)
    (hauto : self.m_config.auto_reconnect = false)
    (hstatus : self.m_status = wifi_station_status.CONNECTED) :
    self.wifi_event_handler drv esp_event_base_t.WIFI_EVENT WIFI_EVENT_STA_DISCONNECTED
        = self ∧
      (self.wifi_event_handler drv esp_event_base_t.WIFI_EVENT
        WIFI_EVENT_STA_DISCONNECTED).attempts_made = self.attempts_made ∧
      (self.wifi_event_handler drv esp_event_base_t.WIFI_EVENT
        WIFI_EVENT_STA_DISCONNECTED).m_connection_attempts = self.m_connection_attempts ∧
      (self.wifi_event_handler drv esp_event_base_t.WIFI_EVENT
        WIFI_EVENT_STA_DISCONNECTED).m_status = wifi_station_status.CONNECTED ∧
      (self.wifi_event_handler drv esp_event_base_t.WIFI_EVENT
        WIFI_EVENT_STA_DISCONNECTED).m_event_group = self.m_event_group := by
  have h : self.wifi_event_handler drv esp_event_base_t.WIFI_EVENT
      WIFI_EVENT_STA_DISCONNECTED = self := by
    rw [wifi_event_handler_sta_disconnected, if_neg (by rw [hstatus]; decide),
      if_neg (by rw [hauto, hstatus]; decide)]
  rw [h]
  exact ⟨rfl, rfl, rfl, hstatus, rfl⟩

theorem disconnected_event_without_auto_reconnect_witness :
    example_connected_no_auto.wifi_event_handler Driver.ok esp_event_base_t.WIFI_EVENT
        WIFI_EVENT_STA_DISCONNECTED = example_connected_no_auto ∧
      (example_connected_no_auto.wifi_event_handler Driver.ok esp_event_base_t.WIFI_EVENT
        WIFI_EVENT_STA_DISCONNECTED).attempts_made = example_connected_no_auto.attempts_made ∧
      (example_connected_no_auto.wifi_event_handler Driver.ok esp_event_base_t.WIFI_EVENT
        WIFI_EVENT_STA_DISCONNECTED).m_connection_attempts
        = example_connected_no_auto.m_connection_attempts ∧
      (example_connected_no_auto.wifi_event_handler Driver.ok esp_event_base_t.WIFI_EVENT
        WIFI_EVENT_STA_DISCONNECTED).m_status = wifi_station_status.CONNECTED ∧
      (example_connected_no_auto.wifi_event_handler Driver.ok esp_event_base_t.WIFI_EVENT
        WIFI_EVENT_STA_DISCONNECTED).m_event_group = example_connected_no_auto.m_event_group :=
  disconnected_event_without_auto_reconnect Driver.ok example_connected_no_auto
    (by decide) (by decide)

/-- C6: for an object whose event group exists with the FAILED_TO_CONNECT bit
clear, a connection-established event followed at once by an address-acquired
event leaves the status `CONNECTED`, the attempt counter 0 and the CONNECTED bit
set (FAILED_TO_CONNECT still clear), and a `start_connection()` suspended in its
wait returns `true`. -/
theorem connected_then_got_ip (drv : Driver) (self : WifiStation) (bits : EventBits_t)
    (hgroup : self.m_event_group = some bits)
    (hfailed : bits &&& WIFI_EVENT_GRP_BIT_FAILED_TO_CONNECT = 0) :
    ((self.wifi_event_handler drv esp_event_base_t.WIFI_EVENT
        WIFI_EVENT_STA_CONNECTED).ip_event_handler esp_event_base_t.IP_EVENT
        IP_EVENT_STA_GOT_IP).m_status = wifi_station_status.CONNECTED ∧
      ((self.wifi_event_handler drv esp_event_base_t.WIFI_EVENT
        WIFI_EVENT_STA_CONNECTED).ip_event_handler esp_event_base_t.IP_EVENT
        IP_EVENT_STA_GOT_IP).m_connection_attempts = 0 ∧
      ((self.wifi_event_handler drv esp_event_base_t.WIFI_EVENT
        WIFI_EVENT_STA_CONNECTED).ip_event_handler esp_event_base_t.IP_EVENT
        IP_EVENT_STA_GOT_IP).bit_set WIFI_EVENT_GRP_BIT_CONNECTED = true ∧
      ((self.wifi_event_handler drv esp_event_base_t.WIFI_EVENT
        WIFI_EVENT_STA_CONNECTED).ip_event_handler esp_event_base_t.IP_EVENT
        IP_EVENT_STA_GOT_IP).bit_set WIFI_EVENT_GRP_BIT_FAILED_TO_CONNECT = false ∧
      ((self.wifi_event_handler drv esp_event_base_t.WIFI_EVENT
        WIFI_EVENT_STA_CONNECTED).ip_event_handler esp_event_base_t.IP_EVENT
        IP_EVENT_STA_GOT_IP).start_connection_wait = some true := by
  rw [wifi_event_handler_sta_connected]
  have hset : (bits ||| WIFI_EVENT_GRP_BIT_CONNECTED) &&& WIFI_EVENT_GRP_BIT_CONNECTED ≠ 0 :=
    set_bit_and_self_ne_zero _ _ (by decide)
  have hclear : (bits ||| WIFI_EVENT_GRP_BIT_CONNECTED) &&& WIFI_EVENT_GRP_BIT_FAILED_TO_CONNECT
      = 0 := by rw [set_connected_keeps_failed, hfailed]
  have hwait := and_or_ne_zero_left _ _ WIFI_EVENT_GRP_BIT_FAILED_TO_CONNECT hset
  simp only [WifiStation.ip_event_handler, WifiStation.bit_set, WifiStation.start_connection_wait,
    xEventGroupWaitBits, xEventGroupSetBits, hgroup, Option.map_some']
  simp [hset, hclear, hwait]

theorem connected_then_got_ip_witness :
    ((example_pending.wifi_event_handler Driver.ok esp_event_base_t.WIFI_EVENT
        WIFI_EVENT_STA_CONNECTED).ip_event_handler esp_event_base_t.IP_EVENT
        IP_EVENT_STA_GOT_IP).m_status = wifi_station_status.CONNECTED ∧
      ((example_pending.wifi_event_handler Driver.ok esp_event_base_t.WIFI_EVENT
        WIFI_EVENT_STA_CONNECTED).ip_event_handler esp_event_base_t.IP_EVENT
        IP_EVENT_STA_GOT_IP).m_connection_attempts = 0 ∧
      ((example_pending.wifi_event_handler Driver.ok esp_event_base_t.WIFI_EVENT
        WIFI_EVENT_STA_CONNECTED).ip_event_handler esp_event_base_t.IP_EVENT
        IP_EVENT_STA_GOT_IP).bit_set WIFI_EVENT_GRP_BIT_CONNECTED = true ∧
      ((example_pending.wifi_event_handler Driver.ok esp_event_base_t.WIFI_EVENT
        WIFI_EVENT_STA_CONNECTED).ip_event_handler esp_event_base_t.IP_EVENT
        IP_EVENT_STA_GOT_IP).bit_set WIFI_EVENT_GRP_BIT_FAILED_TO_CONNECT = false ∧
      ((example_pending.wifi_event_handler Driver.ok esp_event_base_t.WIFI_EVENT
        WIFI_EVENT_STA_CONNECTED).ip_event_handler esp_event_base_t.IP_EVENT
        IP_EVENT_STA_GOT_IP).start_connection_wait = some true :=
  connected_then_got_ip Driver.ok example_pending 0 (by decide) (by decide)

/-- The object `example_reconnecting` is the one the code produces from the
example configuration when `start_connection` has started the driver and the
lifecycle-started, connection-established and connection-lost events have been
handled in this order. -/
theorem example_reconnecting_reached :
    Option.map
        (fun s =>
          ((s.wifi_event_handler Driver.ok esp_event_base_t.WIFI_EVENT
              WIFI_EVENT_STA_START).wifi_event_handler Driver.ok esp_event_base_t.WIFI_EVENT
              WIFI_EVENT_STA_CONNECTED).wifi_event_handler Driver.ok
              esp_event_base_t.WIFI_EVENT WIFI_EVENT_STA_DISCONNECTED)
        (WifiStation.start_connection_begin Driver.ok (WifiStation.construct example_config))
      = some example_reconnecting := by
  decide

/-- One connection-lost event in a retrying object whose counter has passed the
limit: the status becomes `DISCONNECTED`, FAILED_TO_CONNECT is signalled, no
attempt is made. -/
theorem disconnected_event_gives_up (drv : Driver) (self : WifiStation)
    (hstatus : self.m_status ≠ wifi_station_status.STARTING_DISCONNECTION)
    (hretry : self.m_config.auto_reconnect = true
      ∨ self.m_status = wifi_station_status.STARTING_CONNECTION)
    (hbudget : self.m_connection_attempts > self.m_config.max_con_failures) :
    self.wifi_event_handler drv esp_event_base_t.WIFI_EVENT WIFI_EVENT_STA_DISCONNECTED
      = { self with
          m_status := wifi_station_status.DISCONNECTED
          m_event_group :=
            xEventGroupSetBits self.m_event_group WIFI_EVENT_GRP_BIT_FAILED_TO_CONNECT } := by
  rw [wifi_event_handler_sta_disconnected, if_neg hstatus, if_pos hretry, if_pos hbudget]

/-- With `max_con_failures = -1` a connection-lost event in a retrying object
whose counter is not negative takes the give-up branch: the comparison
`m_connection_attempts > max_con_failures` holds. -/
theorem unlimited_value_takes_give_up_branch (drv : Driver) (self : WifiStation)
    (hmax : self.m_config.max_con_failures = -1)
    (hattempts : 0 ≤ self.m_connection_attempts)
    (hstatus : self.m_status ≠ wifi_station_status.STARTING_DISCONNECTION)
    (hretry : self.m_config.auto_reconnect = true
      ∨ self.m_status = wifi_station_status.STARTING_CONNECTION) :
    self.wifi_event_handler drv esp_event_base_t.WIFI_EVENT WIFI_EVENT_STA_DISCONNECTED
      = { self with
          m_status := wifi_station_status.DISCONNECTED
          m_event_group :=
            xEventGroupSetBits self.m_event_group WIFI_EVENT_GRP_BIT_FAILED_TO_CONNECT } :=
  disconnected_event_gives_up drv self hstatus hretry (by rw [hmax]; omega)

/-- C1 at the failing input: with `max_con_failures = -1` and
`auto_reconnect = true`, `start_connection()` and the lifecycle-started event
bring the object to `unlimited_pending` (one attempt made, caller suspended), and
the first connection-lost event sets the FAILED_TO_CONNECT bit and the status
`DISCONNECTED` without a further attempt, so that `start_connection()` returns
`false`. -/
theorem unlimited_value_gives_up_at_first_failure :
    unlimited_config.max_con_failures = -1 ∧
      unlimited_config.auto_reconnect = true ∧
      Option.map
          (fun s => s.wifi_event_handler Driver.ok esp_event_base_t.WIFI_EVENT
            WIFI_EVENT_STA_START)
          (WifiStation.start_connection_begin Driver.ok
            (WifiStation.construct unlimited_config))
        = some unlimited_pending ∧
      unlimited_pending.start_connection_wait = none ∧
      (unlimited_pending.wifi_event_handler Driver.ok esp_event_base_t.WIFI_EVENT
        WIFI_EVENT_STA_DISCONNECTED).bit_set WIFI_EVENT_GRP_BIT_FAILED_TO_CONNECT = true ∧
      (unlimited_pending.wifi_event_handler Driver.ok esp_event_base_t.WIFI_EVENT
        WIFI_EVENT_STA_DISCONNECTED).m_status = wifi_station_status.DISCONNECTED ∧
      (unlimited_pending.wifi_event_handler Driver.ok esp_event_base_t.WIFI_EVENT
        WIFI_EVENT_STA_DISCONNECTED).attempts_made = unlimited_pending.attempts_made ∧
      Option.map Prod.fst
          (WifiStation.start_connection Driver.ok (WifiStation.construct unlimited_config)
            [sta_start_event, sta_disconnected_event])
        = some false := by
  decide
